import Mathlib

/-
Formal model of the gih (generic interrupt handler) kernel module:
a shallow embedding of gih.c (the START/STOP ioctl variant), gih.h and
fio.h. Ring buffers (kfifo) are modelled as Lean lists with the front of
the list holding the oldest element; the destination file (sink) is an
abstract write function returning the vfs_write result; mutex-guarded
critical sections are modelled as atomic sequential steps.
-/

namespace Gih

/-- DATA_FIFO_SZ (gih.h): capacity of the data kfifo, 1 MiB. -/
def DATA_FIFO_SZ : Nat := 2 ^ 20

/-- LOG_FIFO_SZ (gih.h): capacity of each of the three log kfifos. -/
def LOG_FIFO_SZ : Nat := 8192

/-- PATH_MAX_LEN (gih.h): bound on the destination path length. -/
def PATH_MAX_LEN : Nat := 128

/-- TIME_DELTA (gih.h): scheduling correction, in microseconds. -/
def TIME_DELTA : Nat := 100

/-- errno values used by the driver. -/
def EBADF : Int := 9

def EBUSY : Int := 16

def EINVAL : Int := 22

/-- Return value of the interrupt handler on success. -/
def IRQ_HANDLED : Nat := 1

/-- struct log (gih.h): one log record. Timestamps are abstracted to a
single natural number. -/
structure LogEntry where
  byte_sent : Int
  irq_count : Nat
  time : Nat
deriving DecidableEq

/-- kfifo_in of one element on a log kfifo: copies min(1, avail)
elements, so a push on a full fifo silently drops the new element and
reports nothing. -/
def logPush (cap : Nat) (l : List LogEntry) (e : LogEntry) : List LogEntry :=
  if l.length < cap then l ++ [e] else l

/-- The three log kfifos (ilog_buf, wq_n_buf, wq_x_buf of gih.h) together
with the irq_count counters of the three log_dev records. -/
structure LogState where
  ilog_buf : List LogEntry
  wq_n_buf : List LogEntry
  wq_x_buf : List LogEntry
  intr_count : Nat
  wq_n_count : Nat
  wq_x_count : Nat
deriving DecidableEq

/-- gih_dev (gih.h): the mutable driver state the claims are about.
data_buf is the data kfifo, data_wait the atomic byte counter.
dest_open mirrors dest_filp being non NULL, and irq_held records whether
a request_irq call has not yet been matched by free_irq (external
resource state). -/
structure GihDev where
  setup : Bool
  keep_missed : Bool
  irq : Int
  sleep_msec : Nat
  write_size : Nat
  path : List Char
  data_buf : List Nat
  data_wait : Int
  dest_open : Bool
  irq_held : Bool
deriving DecidableEq

/-- file_write_kfifo (fio.h, lines 157 to 167): pops size elements from
the fifo in FIFO order into a temporary array and hands that array to
file_write on the sink. Returns the remaining fifo, the popped bytes and
the file_write result. Note that the elements are popped before the
write and are never pushed back, whatever the write result is. -/
def file_write_kfifo (sink : List Nat → Int) (fifo : List Nat) (size : Nat) :
    List Nat × List Nat × Int :=
  let data := fifo.take size
  (fifo.drop size, data, sink data)

/-- gih_open (gih.c, lines 116 to 147), the body after the dev_open
trylock: data_wait is reset to 0 and the data kfifo is reset. -/
def gih_open (g : GihDev) : GihDev :=
  { g with data_wait := 0, data_buf := [] }

/-- gih_write (gih.c, lines 270 to 311), the critical section under
wrt_lock: when keep_missed is false the data kfifo and data_wait are
reset first; then avail = kfifo_avail, length = min(len, avail), and
kfifo_from_user appends length bytes (the user copy is assumed to
succeed, so copied = length); data_wait is increased by copied and
copied is returned. -/
def gih_write (g : GihDev) (buf : List Nat) : GihDev × Int :=
  let g1 := if g.keep_missed then g else { g with data_buf := [], data_wait := 0 }
  let avail := DATA_FIFO_SZ - g1.data_buf.length
  let length := min buf.length avail
  ({ g1 with data_buf := g1.data_buf ++ buf.take length,
             data_wait := g1.data_wait + (length : Int) }, (length : Int))

/-- n_out_byte of gih_do_work: min(kfifo_len(data_buf), write_size). -/
def flushN (g : GihDev) : Nat := min g.data_buf.length g.write_size

/-- Result of one flush cycle: the new device state, the new log state,
the bytes handed to the sink and the sink write result out. -/
structure WorkResult where
  dev : GihDev
  logs : LogState
  sent : List Nat
  out : Int

/-- gih_do_work (gih.c, lines 583 to 640): under wrt_lock, compute
n_out_byte = min(kfifo_len, write_size), sleep, pop and write that many
bytes through file_write_kfifo, subtract out from data_wait, sync; then
push an enter entry on wq_n_buf (byte_sent = -1) and an exit entry on
wq_x_buf carrying byte_sent = out, each with the corresponding
irq_count counter value, which is incremented. -/
def gih_do_work (g : GihDev) (sink : List Nat → Int) (ls : LogState)
    (tEnter tExit : Nat) : WorkResult :=
  let n_out_byte := min g.data_buf.length g.write_size
  let r := file_write_kfifo sink g.data_buf n_out_byte
  let out := r.2.2
  let g1 := { g with data_buf := r.1, data_wait := g.data_wait - out }
  let entry : LogEntry := { byte_sent := -1, irq_count := ls.wq_n_count, time := tEnter }
  let ls1 := { ls with wq_n_buf := logPush LOG_FIFO_SZ ls.wq_n_buf entry,
                       wq_n_count := ls.wq_n_count + 1 }
  let exit_log : LogEntry := { byte_sent := out, irq_count := ls1.wq_x_count, time := tExit }
  let ls2 := { ls1 with wq_x_buf := logPush LOG_FIFO_SZ ls1.wq_x_buf exit_log,
                        wq_x_count := ls1.wq_x_count + 1 }
  { dev := g1, logs := ls2, sent := r.2.1, out := out }

/-- Lower bound handed to usleep_range in gih_do_work (gih.c, line 598):
sleep_msec * 1000 - 2 * 2 * TIME_DELTA in unsigned int arithmetic,
hence reduced modulo 2 ^ 32. -/
def flushSleepLo (sleep_msec : Nat) : Nat :=
  (sleep_msec * 1000 + (2 ^ 32 - 4 * TIME_DELTA)) % 2 ^ 32

/-- Upper bound handed to usleep_range in gih_do_work (gih.c, line 599):
sleep_msec * 1000 - TIME_DELTA in unsigned int arithmetic. -/
def flushSleepHi (sleep_msec : Nat) : Nat :=
  (sleep_msec * 1000 + (2 ^ 32 - TIME_DELTA)) % 2 ^ 32

/-- gih_intr (gih.c, lines 668 to 692): records an intr_log entry with
byte_sent = -1 and the current intr irq_count (then incremented), pushes
it with kfifo_in (drop on full), and returns IRQ_HANDLED. Work queueing
is not modelled. -/
def gih_intr (ls : LogState) (t : Nat) : LogState × Nat :=
  let e : LogEntry := { byte_sent := -1, irq_count := ls.intr_count, time := t }
  ({ ls with ilog_buf := logPush LOG_FIFO_SZ ls.ilog_buf e,
             intr_count := ls.intr_count + 1 }, IRQ_HANDLED)

/-- gih_ioctl, case GIH_IOC_CONFIG_IRQ (gih.c, lines 363 to 383). -/
def gih_ioctl_config_irq (g : GihDev) (arg : Int) : GihDev × Int :=
  if g.setup then (g, -EBUSY)
  else if arg < 0 then (g, -EINVAL)
  else ({ g with irq := arg }, 0)

/-- gih_ioctl, case GIH_IOC_CONFIG_DELAY_T (gih.c, lines 387 to 410). -/
def gih_ioctl_config_delay (g : GihDev) (arg : Int) : GihDev × Int :=
  if g.setup then (g, -EBUSY)
  else if arg < 0 then (g, -EINVAL)
  else ({ g with sleep_msec := arg.toNat }, 0)

/-- gih_ioctl, case GIH_IOC_CONFIG_WRT_SZ (gih.c, lines 414 to 437). -/
def gih_ioctl_config_wrt_sz (g : GihDev) (arg : Int) : GihDev × Int :=
  if g.setup then (g, -EBUSY)
  else if arg ≤ 0 then (g, -EINVAL)
  else ({ g with write_size := arg.toNat }, 0)

/-- gih_ioctl, case GIH_IOC_CONFIG_PATH (gih.c, lines 441 to 464). -/
def gih_ioctl_config_path (g : GihDev) (p : List Char) : GihDev × Int :=
  if g.setup then (g, -EBUSY)
  else if PATH_MAX_LEN - 1 < p.length then (g, -EINVAL)
  else ({ g with path := p }, 0)

/-- gih_ioctl, case GIH_IOC_CONFIG_MISS (gih.c, lines 529 to 546). -/
def gih_ioctl_config_miss (g : GihDev) (arg : Int) : GihDev × Int :=
  if g.setup then (g, -EBUSY)
  else ({ g with keep_missed := if arg = 0 then false else true }, 0)

/-- gih_ioctl, case GIH_IOC_CONFIG_START (gih.c, lines 468 to 501):
request_irq first (its result is the parameter irqRes; on failure that
error is returned with the state unchanged); then file_open on the path
(its success is the parameter fileOk; on failure -EBADF is returned and
the irq is NOT released); on full success setup becomes true. -/
def gih_ioctl_config_start (g : GihDev) (irqRes : Int) (fileOk : Bool) :
    GihDev × Int :=
  if g.setup then (g, -EBUSY)
  else if irqRes < 0 then (g, irqRes)
  else
    let g1 := { g with irq_held := true }
    if fileOk = false then (g1, -EBADF)
    else ({ g1 with dest_open := true, setup := true }, 0)

/-- gih_ioctl, case GIH_IOC_CONFIG_STOP (gih.c, lines 505 to 525):
free_irq, flush_workqueue, file_close, setup := false, return 0. The
data kfifo and data_wait are not touched. -/
def gih_ioctl_config_stop (g : GihDev) : GihDev × Int :=
  if g.setup = false then (g, -EBUSY)
  else ({ g with irq_held := false, dest_open := false, setup := false }, 0)

/-- gih_close (gih.c, lines 179 to 236): if not set up, only releases the
open lock. Otherwise frees the irq, flushes the workqueue and, under
wrt_lock: if keep_missed is false, resets the data kfifo and data_wait;
if keep_missed is true, pops data_wait bytes through file_write_kfifo
into the sink and computes the return value copied as in the source
(negative write results returned as is, a short write warned about and
reported as 0); data_wait is not changed in that branch. The sink is
closed in both cases. -/
def gih_close (g : GihDev) (sink : List Nat → Int) : GihDev × Int :=
  if g.setup = false then (g, 0)
  else
    let g1 := { g with setup := false, irq_held := false }
    if g1.keep_missed = false then
      ({ g1 with data_buf := [], data_wait := 0, dest_open := false }, 0)
    else
      let dwait := g1.data_wait.toNat
      let r := file_write_kfifo sink g1.data_buf dwait
      let copied := r.2.2
      let copied1 := if copied < 0 then copied
                     else if copied = (dwait : Int) then copied else 0
      ({ g1 with data_buf := r.1, dest_open := false }, copied1)

/-- A sink that accepts every byte handed to it (vfs_write full
success). -/
def sinkFull : List Nat → Int := fun l => (l.length : Int)

/-- A sink that reports exactly one byte written on every call (a short
vfs_write). -/
def sinkPartial : List Nat → Int := fun _ => 1

/-- Empty log state. -/
def ls0 : LogState :=
  { ilog_buf := [], wq_n_buf := [], wq_x_buf := [],
    intr_count := 0, wq_n_count := 0, wq_x_count := 0 }

/-- A sample log entry. -/
def e0 : LogEntry := { byte_sent := -1, irq_count := 0, time := 3 }

/-- A running device (setup, keep_missed) with five bytes pending. -/
def devA : GihDev :=
  { setup := true, keep_missed := true, irq := 5, sleep_msec := 50,
    write_size := 3, path := [], data_buf := [1, 2, 3, 4, 5], data_wait := 5,
    dest_open := true, irq_held := true }

/-- A stopped device with keep_missed false and three bytes pending. -/
def devB : GihDev :=
  { setup := false, keep_missed := false, irq := 5, sleep_msec := 50,
    write_size := 3, path := [], data_buf := [1, 2, 3], data_wait := 3,
    dest_open := false, irq_held := false }

/-- A running device with keep_missed true, write_size 3 and exactly
three bytes pending. -/
def devC : GihDev :=
  { setup := true, keep_missed := true, irq := 5, sleep_msec := 50,
    write_size := 3, path := [], data_buf := [1, 2, 3], data_wait := 3,
    dest_open := true, irq_held := true }

/-- A freshly opened, not yet started device. -/
def devS : GihDev :=
  { setup := false, keep_missed := false, irq := 3, sleep_msec := 0,
    write_size := 1, path := [], data_buf := [], data_wait := 0,
    dest_open := false, irq_held := false }

/-- C1, counterexample: on the running device devA (keep_missed true,
five bytes pending), the GIH_IOC_CONFIG_STOP ioctl returns 0 (not the
five drained bytes), leaves all five bytes in the data kfifo and leaves
data_wait at 5, so bytes_waiting is not 0 after stop returns. -/
theorem stop_does_not_drain_cex :
    (gih_ioctl_config_stop devA).2 = 0 ∧
    (gih_ioctl_config_stop devA).1.data_buf = [1, 2, 3, 4, 5] ∧
    (gih_ioctl_config_stop devA).1.data_wait = 5 ∧
    ¬ (gih_ioctl_config_stop devA).1.data_wait = 0 := by decide

/-- C3, counterexample: with keep_missed false and three bytes already
pending (devB, data_wait = 3), a one byte write returns 1 but leaves
data_wait = 1, not 3 + 1: bytes_waiting is not incremented by the
accepted count. -/
theorem write_accepted_cex :
    (gih_write devB [7]).2 = 1 ∧
    (gih_write devB [7]).1.data_wait = 1 ∧
    ¬ (gih_write devB [7]).1.data_wait = devB.data_wait + 1 := by decide

/-- C4, counterexample: with keep_missed false, a write call discards
the three bytes already buffered in devB before appending: the bytes
buffered before the call are no longer present after it. -/
theorem write_append_cex :
    (gih_write devB [7]).1.data_buf = [7] ∧
    ¬ (gih_write devB [7]).1.data_buf.take 3 = [1, 2, 3] := by decide

/-- C5, counterexample: on devC (three bytes buffered, write_size 3) a
flush cycle whose sink accepts only 1 of the 3 popped bytes leaves the
data kfifo empty: the two unwritten bytes are not requeued for the next
cycle, even though data_wait still claims 2 bytes pending. -/
theorem partial_write_remainder_cex :
    (gih_do_work devC sinkPartial ls0 0 0).out = 1 ∧
    (gih_do_work devC sinkPartial ls0 0 0).dev.data_buf = [] ∧
    (gih_do_work devC sinkPartial ls0 0 0).dev.data_wait = 2 ∧
    ¬ (gih_do_work devC sinkPartial ls0 0 0).dev.data_buf = [2, 3] := by decide

/-- C6 (code bug): starting devS when request_irq succeeds (irqRes = 0)
but the sink open fails returns -EBADF and leaves the device stopped,
but the irq stays requested: there is no free_irq on that error path.
For contrast: a request_irq failure leaves the state unchanged and
returns the underlying error, a full success sets setup, and START on a
running device returns -EBUSY. -/
theorem start_leaks_irq_on_sink_failure :
    (gih_ioctl_config_start devS 0 false).2 = -EBADF ∧
    (gih_ioctl_config_start devS 0 false).1.irq_held = true ∧
    (gih_ioctl_config_start devS 0 false).1.setup = false ∧
    gih_ioctl_config_start devS (-3) true = (devS, -3) ∧
    (gih_ioctl_config_start devS 0 true).1.setup = true ∧
    (gih_ioctl_config_start devA 0 true).2 = -EBUSY := by decide

/-- C9 (code bug): the usleep_range bounds computed by the flush worker
for a configured delay of 0 ms underflow the unsigned subtraction and
come out as about 4295 seconds instead of the clamped value 0; for a
delay of 50 ms they are the expected 49600 and 49900 microseconds. -/
theorem sleep_bound_underflow_at_zero_delay :
    flushSleepLo 0 = 4294966896 ∧
    flushSleepHi 0 = 4294967196 ∧
    ¬ flushSleepLo 0 = 0 ∧
    flushSleepLo 50 = 49600 ∧
    flushSleepHi 50 = 49900 := by decide

/-- C10, counterexample: gih_close on devA (running, keep_missed true,
data_wait = 5 = buffered length) with a fully accepting sink empties
the data kfifo but leaves data_wait at 5, so the invariant
data_wait = kfifo_len(data_buf) does not survive close. -/
theorem close_breaks_wait_invariant_cex :
    (gih_close devA sinkFull).1.data_buf = [] ∧
    (gih_close devA sinkFull).1.data_wait = 5 ∧
    (gih_close devA sinkFull).2 = 5 ∧
    ¬ (gih_close devA sinkFull).1.data_wait
        = ((gih_close devA sinkFull).1.data_buf.length : Int) := by decide

/-- C3 (amended): a write call first applies the keep_missed policy
(the channel and bytes_waiting are reset when keep_missed is false) and
only then computes avail; the returned count is min(len, avail) for
that post-reset avail, bytes_waiting afterwards equals the post-reset
value plus the accepted count, exactly that many bytes are appended,
accepted never exceeds requested, and the call never errors for lack of
room. -/
theorem write_min_accept (g : GihDev) (buf : List Nat) :
    (gih_write g buf).2 =
      ((min buf.length
        (DATA_FIFO_SZ - (if g.keep_missed then g.data_buf.length else 0)) : Nat) : Int) ∧
    (gih_write g buf).1.data_wait =
      (if g.keep_missed then g.data_wait else 0) +
      ((min buf.length
        (DATA_FIFO_SZ - (if g.keep_missed then g.data_buf.length else 0)) : Nat) : Int) ∧
    (gih_write g buf).1.data_buf.length =
      (if g.keep_missed then g.data_buf.length else 0) +
      min buf.length
        (DATA_FIFO_SZ - (if g.keep_missed then g.data_buf.length else 0)) ∧
    (gih_write g buf).2 ≤ (buf.length : Int) := by
  cases hk : g.keep_missed <;>
    simp [gih_write, hk, List.length_take]

/-- C4 (amended): a write call preserves the previously buffered bytes
(in their FIFO positions) exactly when keep_missed is true; when
keep_missed is false the buffered data is discarded at the start of the
call and only the newly accepted bytes remain. -/
theorem write_resets_unless_keep (g : GihDev) (buf : List Nat) :
    (gih_write g buf).1.data_buf =
      (if g.keep_missed then g.data_buf else []) ++
        buf.take (min buf.length
          (DATA_FIFO_SZ - (if g.keep_missed then g.data_buf.length else 0))) := by
  cases hk : g.keep_missed <;> simp [gih_write, hk]

/-- C2: one flush cycle takes n = min(buffered length, write_size) as
computed from the state at the start of the cycle, pops exactly the
first n buffered bytes in FIFO order and hands them to the sink,
decrements data_wait by the written count out (with 0 ≤ out ≤ n for a
sink reporting a written byte count), and pushes an exit_log entry
carrying byte_sent = out. -/
theorem flush_cycle_min_pop_log (g : GihDev) (sink : List Nat → Int)
    (ls : LogState) (tE tX : Nat)
    (hs : ∀ l, 0 ≤ sink l ∧ sink l ≤ (l.length : Int)) :
    (gih_do_work g sink ls tE tX).sent = g.data_buf.take (flushN g) ∧
    (gih_do_work g sink ls tE tX).dev.data_buf = g.data_buf.drop (flushN g) ∧
    (gih_do_work g sink ls tE tX).out = sink (g.data_buf.take (flushN g)) ∧
    0 ≤ (gih_do_work g sink ls tE tX).out ∧
    (gih_do_work g sink ls tE tX).out ≤ ((flushN g : Nat) : Int) ∧
    (gih_do_work g sink ls tE tX).dev.data_wait
      = g.data_wait - (gih_do_work g sink ls tE tX).out ∧
    (gih_do_work g sink ls tE tX).logs.wq_x_buf
      = logPush LOG_FIFO_SZ ls.wq_x_buf
          { byte_sent := (gih_do_work g sink ls tE tX).out,
            irq_count := ls.wq_x_count, time := tX } := by
  have h := hs (g.data_buf.take (flushN g))
  have hlen : (g.data_buf.take (flushN g)).length = flushN g := by
    simp [List.length_take, flushN]
  refine ⟨by simp [gih_do_work, file_write_kfifo, flushN],
          by simp [gih_do_work, file_write_kfifo, flushN],
          by simp [gih_do_work, file_write_kfifo, flushN],
          ?_, ?_,
          by simp [gih_do_work, file_write_kfifo, flushN],
          by simp [gih_do_work, file_write_kfifo, flushN]⟩
  · have : (gih_do_work g sink ls tE tX).out = sink (g.data_buf.take (flushN g)) := by
      simp [gih_do_work, file_write_kfifo, flushN]
    rw [this]; exact h.1
  · have : (gih_do_work g sink ls tE tX).out = sink (g.data_buf.take (flushN g)) := by
      simp [gih_do_work, file_write_kfifo, flushN]
    rw [this]; calc sink (g.data_buf.take (flushN g))
        ≤ ((g.data_buf.take (flushN g)).length : Int) := h.2
      _ = ((flushN g : Nat) : Int) := by rw [hlen]

/-- C2 witness: the general flush cycle theorem applied to the concrete
device devC with the fully accepting sink. -/
theorem flush_cycle_min_pop_log_witness :
    (gih_do_work devC sinkFull ls0 0 0).sent = devC.data_buf.take (flushN devC) ∧
    (gih_do_work devC sinkFull ls0 0 0).dev.data_wait
      = devC.data_wait - (gih_do_work devC sinkFull ls0 0 0).out := by
  have h := flush_cycle_min_pop_log devC sinkFull ls0 0 0
    (fun l => ⟨Int.natCast_nonneg l.length, le_refl _⟩)
  exact ⟨h.1, h.2.2.2.2.2.1⟩

/-- C5 (amended): when the sink write of a flush cycle is short
(0 ≤ out < n), the worker still completes and records its exit_log
entry (no crash) and data_wait is decremented only by out; but the n
popped bytes have all left the data channel: the buffer shrinks by the
full n, so the unwritten n - out bytes are lost rather than staying
queued for the next cycle. -/
theorem partial_write_loses_remainder (g : GihDev) (sink : List Nat → Int)
    (ls : LogState) (tE tX : Nat)
    (h0 : 0 ≤ sink (g.data_buf.take (flushN g)))
    (hlt : sink (g.data_buf.take (flushN g)) < ((flushN g : Nat) : Int)) :
    (gih_do_work g sink ls tE tX).dev.data_wait
      = g.data_wait - sink (g.data_buf.take (flushN g)) ∧
    (gih_do_work g sink ls tE tX).dev.data_buf = g.data_buf.drop (flushN g) ∧
    (gih_do_work g sink ls tE tX).dev.data_buf.length
      = g.data_buf.length - flushN g ∧
    ((gih_do_work g sink ls tE tX).dev.data_buf.length : Int)
      < (g.data_buf.length : Int) - sink (g.data_buf.take (flushN g)) ∧
    (gih_do_work g sink ls tE tX).logs.wq_x_count = ls.wq_x_count + 1 := by
  have hn : flushN g ≤ g.data_buf.length := Nat.min_le_left _ _
  refine ⟨by simp [gih_do_work, file_write_kfifo, flushN],
          by simp [gih_do_work, file_write_kfifo, flushN],
          by simp [gih_do_work, file_write_kfifo, flushN],
          ?_,
          by simp [gih_do_work, file_write_kfifo, flushN]⟩
  have hb : (gih_do_work g sink ls tE tX).dev.data_buf.length
      = g.data_buf.length - flushN g := by
    simp [gih_do_work, file_write_kfifo, flushN]
  rw [hb]
  omega

/-- C5 witness: the short write theorem applied to devC with the sink
that accepts a single byte. -/
theorem partial_write_loses_remainder_witness :
    (gih_do_work devC sinkPartial ls0 0 0).dev.data_wait
      = devC.data_wait - sinkPartial (devC.data_buf.take (flushN devC)) ∧
    (gih_do_work devC sinkPartial ls0 0 0).dev.data_buf.length
      = devC.data_buf.length - flushN devC := by
  have h := partial_write_loses_remainder devC sinkPartial ls0 0 0
    (by decide) (by decide)
  exact ⟨h.1, h.2.2.1⟩

/-- C7: every configuration ioctl invoked while the device is running
(setup) returns -EBUSY with the state unchanged, and so does START;
while stopped, STOP returns -EBUSY with the state unchanged, and the
argument validations reject a negative irq, a negative delay, a
non-positive write size and a path longer than PATH_MAX_LEN - 1 with
-EINVAL, changing nothing. -/
theorem config_gating_validation (g : GihDev) (a : Int) (p : List Char)
    (irqRes : Int) (fOk : Bool) :
    (g.setup = true →
      gih_ioctl_config_irq g a = (g, -EBUSY) ∧
      gih_ioctl_config_delay g a = (g, -EBUSY) ∧
      gih_ioctl_config_wrt_sz g a = (g, -EBUSY) ∧
      gih_ioctl_config_path g p = (g, -EBUSY) ∧
      gih_ioctl_config_miss g a = (g, -EBUSY) ∧
      gih_ioctl_config_start g irqRes fOk = (g, -EBUSY)) ∧
    (g.setup = false →
      gih_ioctl_config_stop g = (g, -EBUSY) ∧
      (a < 0 → gih_ioctl_config_irq g a = (g, -EINVAL) ∧
               gih_ioctl_config_delay g a = (g, -EINVAL)) ∧
      (a ≤ 0 → gih_ioctl_config_wrt_sz g a = (g, -EINVAL)) ∧
      (PATH_MAX_LEN - 1 < p.length → gih_ioctl_config_path g p = (g, -EINVAL))) := by
  constructor
  · intro h
    simp [gih_ioctl_config_irq, gih_ioctl_config_delay, gih_ioctl_config_wrt_sz,
          gih_ioctl_config_path, gih_ioctl_config_miss, gih_ioctl_config_start, h]
  · intro h
    refine ⟨by simp [gih_ioctl_config_stop, h], fun ha => ?_, fun ha => ?_, fun hp => ?_⟩
    · constructor <;>
        simp [gih_ioctl_config_irq, gih_ioctl_config_delay, h, ha]
    · simp [gih_ioctl_config_wrt_sz, h, ha]
    · simp [gih_ioctl_config_path, h, hp]

/-- C7 witness: the gating theorem applied to the running device devA
and the stopped device devS with concrete out-of-range arguments. -/
theorem config_gating_validation_witness :
    gih_ioctl_config_irq devA 3 = (devA, -EBUSY) ∧
    gih_ioctl_config_stop devS = (devS, -EBUSY) ∧
    gih_ioctl_config_irq devS (-1) = (devS, -EINVAL) ∧
    gih_ioctl_config_wrt_sz devS 0 = (devS, -EINVAL) := by
  have h1 := config_gating_validation devA 3 [] 0 true
  have h2 := config_gating_validation devS (-1) [] 0 true
  have h3 := config_gating_validation devS 0 [] 0 true
  exact ⟨(h1.1 rfl).1, (h2.2 rfl).1,
         ((h2.2 rfl).2.1 (by decide)).1, (h3.2 rfl).2.2.1 (by decide)⟩

/-- C8: a push on a log kfifo holding at most LOG_FIFO_SZ entries never
makes it exceed that capacity; a push on a full fifo leaves it
unchanged (the new entry is silently dropped, the stored ones stay
intact), a push on a non-full fifo appends; the interrupt handler and
the flush worker both push through this operation only, and the
interrupt handler still returns IRQ_HANDLED (no error) whatever the
fifo state. -/
theorem log_capacity_drop_on_full (l : List LogEntry) (e : LogEntry)
    (ls : LogState) (t : Nat) (g : GihDev) (sink : List Nat → Int) (tE tX : Nat)
    (hl : l.length ≤ LOG_FIFO_SZ) :
    (logPush LOG_FIFO_SZ l e).length ≤ LOG_FIFO_SZ ∧
    (l.length = LOG_FIFO_SZ → logPush LOG_FIFO_SZ l e = l) ∧
    (l.length < LOG_FIFO_SZ → logPush LOG_FIFO_SZ l e = l ++ [e]) ∧
    (gih_intr ls t).1.ilog_buf
      = logPush LOG_FIFO_SZ ls.ilog_buf
          { byte_sent := -1, irq_count := ls.intr_count, time := t } ∧
    (gih_intr ls t).2 = IRQ_HANDLED ∧
    (gih_do_work g sink ls tE tX).logs.wq_n_buf
      = logPush LOG_FIFO_SZ ls.wq_n_buf
          { byte_sent := -1, irq_count := ls.wq_n_count, time := tE } ∧
    (gih_do_work g sink ls tE tX).logs.wq_x_buf
      = logPush LOG_FIFO_SZ ls.wq_x_buf
          { byte_sent := (gih_do_work g sink ls tE tX).out,
            irq_count := ls.wq_x_count, time := tX } := by
  refine ⟨?_, fun hfull => ?_, fun hlt => ?_,
          by simp [gih_intr],
          by simp [gih_intr],
          by simp [gih_do_work, file_write_kfifo],
          by simp [gih_do_work, file_write_kfifo]⟩
  · by_cases hc : l.length < LOG_FIFO_SZ <;> simp [logPush, hc] <;> omega
  · simp [logPush, hfull]
  · simp [logPush, hlt]

/-- C8 witness: the log capacity theorem applied to a one entry fifo
and the empty log state. -/
theorem log_capacity_drop_on_full_witness :
    logPush LOG_FIFO_SZ [e0] e0 = [e0] ++ [e0] ∧
    (gih_intr ls0 7).2 = IRQ_HANDLED := by
  have h := log_capacity_drop_on_full [e0] e0 ls0 7 devC sinkFull 0 0 (by decide)
  exact ⟨h.2.2.1 (by decide), h.2.2.2.2.1⟩

/-- C1 (amended): on a running device, GIH_IOC_CONFIG_STOP performs no
drain at all: it returns 0 and leaves the data kfifo and data_wait
exactly as they were, only clearing setup (and releasing irq and sink).
The keep_missed drain policy runs in gih_close instead: with
keep_missed false the buffer and data_wait are reset to 0 and 0 is
returned; with keep_missed true all data_wait pending bytes (equal to
the buffered length) are flushed in one final write and, when the sink
accepts them all, close returns that count, while data_wait itself
stays at its old value. -/
theorem stop_no_drain_close_drains (g : GihDev) (sink : List Nat → Int)
    (hs : g.setup = true)
    (hw : g.data_wait.toNat = g.data_buf.length)
    (hfull : sink (g.data_buf.take g.data_wait.toNat) = (g.data_wait.toNat : Int)) :
    (gih_ioctl_config_stop g).2 = 0 ∧
    (gih_ioctl_config_stop g).1.data_buf = g.data_buf ∧
    (gih_ioctl_config_stop g).1.data_wait = g.data_wait ∧
    (gih_ioctl_config_stop g).1.setup = false ∧
    (g.keep_missed = false →
      (gih_close g sink).1.data_buf = [] ∧
      (gih_close g sink).1.data_wait = 0 ∧
      (gih_close g sink).2 = 0) ∧
    (g.keep_missed = true →
      (gih_close g sink).1.data_buf = [] ∧
      (gih_close g sink).2 = (g.data_wait.toNat : Int) ∧
      (gih_close g sink).1.data_wait = g.data_wait) := by
  refine ⟨by simp [gih_ioctl_config_stop, hs],
          by simp [gih_ioctl_config_stop, hs],
          by simp [gih_ioctl_config_stop, hs],
          by simp [gih_ioctl_config_stop, hs],
          fun hk => by simp [gih_close, hs, hk],
          fun hk => ?_⟩
  have hnotneg : ¬ ((g.data_wait.toNat : Int) < 0) := by
    exact not_lt.mpr (Int.natCast_nonneg _)
  refine ⟨?_, ?_, ?_⟩
  · simp [gih_close, hs, hk, hw, file_write_kfifo]
  · simp [gih_close, hs, hk, file_write_kfifo, hfull, hnotneg]
  · simp [gih_close, hs, hk, file_write_kfifo]

/-- C1 witness: the stop and close behavior at the concrete running
device devA with the fully accepting sink. -/
theorem stop_no_drain_close_drains_witness :
    (gih_ioctl_config_stop devA).2 = 0 ∧
    (gih_close devA sinkFull).1.data_buf = [] ∧
    (gih_close devA sinkFull).2 = (devA.data_wait.toNat : Int) ∧
    (gih_close devA sinkFull).1.data_wait = devA.data_wait := by
  have h := stop_no_drain_close_drains devA sinkFull rfl (by decide) (by decide)
  exact ⟨h.1, (h.2.2.2.2.2 rfl).1, (h.2.2.2.2.2 rfl).2.1, (h.2.2.2.2.2 rfl).2.2⟩

/-- C10 (amended): provided the sink accepts every byte handed to it,
open, write, the flush worker and the STOP ioctl all preserve the
invariant data_wait = kfifo_len(data_buf), and gih_close preserves it
when keep_missed is false; but gih_close on a running device with
keep_missed true empties the buffer while leaving data_wait at its old
value, so the invariant is re-established only by the next open. -/
theorem wait_invariant_amended (g : GihDev) (buf : List Nat)
    (sinkE : List Nat → Int) (ls : LogState) (tE tX : Nat)
    (hg : g.data_wait = (g.data_buf.length : Int))
    (hsk : ∀ l, sinkE l = (l.length : Int)) :
    (gih_open g).data_wait = ((gih_open g).data_buf.length : Int) ∧
    (gih_write g buf).1.data_wait
      = ((gih_write g buf).1.data_buf.length : Int) ∧
    (gih_do_work g sinkE ls tE tX).dev.data_wait
      = ((gih_do_work g sinkE ls tE tX).dev.data_buf.length : Int) ∧
    (gih_ioctl_config_stop g).1.data_wait
      = ((gih_ioctl_config_stop g).1.data_buf.length : Int) ∧
    (g.keep_missed = false →
      (gih_close g sinkE).1.data_wait
        = ((gih_close g sinkE).1.data_buf.length : Int)) ∧
    (g.keep_missed = true → g.setup = true →
      (gih_close g sinkE).1.data_buf = [] ∧
      (gih_close g sinkE).1.data_wait = g.data_wait) := by
  refine ⟨by simp [gih_open], ?_, ?_, ?_, fun hk => ?_, fun hk hsetup => ?_⟩
  · cases hk : g.keep_missed <;>
      simp [gih_write, hk, List.length_take, hg]
  · have h1 := hsk (g.data_buf.take (min g.data_buf.length g.write_size))
    simp [gih_do_work, file_write_kfifo, hg, h1, List.length_take]
  · cases hsetup : g.setup <;> simp [gih_ioctl_config_stop, hsetup, hg]
  · cases hsetup : g.setup <;> simp [gih_close, hsetup, hk, hg]
  · have hw : g.data_wait.toNat = g.data_buf.length := by omega
    constructor
    · simp [gih_close, hsetup, hk, hw, file_write_kfifo]
    · simp [gih_close, hsetup, hk, file_write_kfifo]

/-- C10 witness: the invariant preservation theorem applied to devA
(where data_wait equals the buffered length) with the fully accepting
sink. -/
theorem wait_invariant_amended_witness :
    (gih_open devA).data_wait = ((gih_open devA).data_buf.length : Int) ∧
    (gih_write devA [9]).1.data_wait
      = ((gih_write devA [9]).1.data_buf.length : Int) ∧
    (gih_do_work devA sinkFull ls0 0 0).dev.data_wait
      = ((gih_do_work devA sinkFull ls0 0 0).dev.data_buf.length : Int) := by
  have h := wait_invariant_amended devA [9] sinkFull ls0 0 0 (by decide) (fun l => rfl)
  exact ⟨h.1, h.2.1, h.2.2.1⟩

end Gih
